import Mathlib

/-
  Verification development for the SSD1677 e-paper display driver.

  The Rust sources are shallowly embedded below: machine integers (u8, u16,
  u32) are modelled as Nat, with explicit reductions modulo a power of two
  wherever the source performs wrapping arithmetic.  Unsigned subtraction is
  modelled by truncated Nat subtraction; every statement settled here only
  evaluates the subtractions on inputs where no underflow occurs, so the
  truncated model agrees exactly with the u32/u16 semantics of the source.
  Commands and data bytes written to the transport are modelled as a trace
  (a list of TraceItem); fallible buffer indexing is modelled with Option,
  where none stands for an out-of-bounds panic in the source.
-/

namespace SSD1677

/-- Rotation of the display relative to the native orientation
    (basic_display.rs, enum Rotation). -/
inductive Rotation
| Rotate0
| Rotate90
| Rotate180
| Rotate270
deriving DecidableEq

/-- Binary pixel color from embedded-graphics-core, as consumed by
    set_pixel and clear. -/
inductive BinaryColor
| On
| Off
deriving DecidableEq

/-- One item written to the transport: a command byte (data/command line low)
    or a block of data bytes (line high).  Mirrors the DisplayInterface
    methods send_command and send_data (interface.rs). -/
inductive TraceItem
| cmd (c : Nat)
| data (d : List Nat)
deriving DecidableEq

/-- The kind of update to perform (basic_display.rs, enum DisplayUpdateMode). -/
inductive DisplayUpdateMode
| Fast
| Slow
deriving DecidableEq

/-- Byte value of a DisplayUpdateMode (the Rust enum discriminants
    Fast = 0xFF, Slow = 0xF7). -/
def DisplayUpdateMode.val : DisplayUpdateMode → Nat
| .Fast => 0xFF
| .Slow => 0xF7

/-- Wrapping 16-bit subtraction, the semantics of u16 subtraction in the
    source (release profile). -/
def sub16 (a b : Nat) : Nat := (a + 65536 - b) % 65536

namespace Graphics

/-- The coordinate-to-buffer mapping of graphics.rs (fn rotation,
    lines 211-221): maps (x, y) and the native panel width/height to a
    (byte index, bit mask) pair.  This is the closed-form transform the
    spec documents in section 4.3. -/
def rotation (x y width height : Nat) (r : Rotation) : Nat × Nat :=
  match r with
  | .Rotate0 => (x / 8 + (width / 8) * y, 128 >>> (x % 8))
  | .Rotate90 => ((width - 1 - y) / 8 + (width / 8) * x, 1 <<< (y % 8))
  | .Rotate180 =>
      ((width / 8) * height - 1 - (x / 8 + (width / 8) * y), 1 <<< (x % 8))
  | .Rotate270 => (y / 8 + (height - 1 - x) * (width / 8), 128 >>> (y % 8))

end Graphics

namespace Display

/-- The coordinate-to-buffer mapping of display.rs (fn rotation,
    lines 256-282), the one Display.set_pixel calls: it first mirrors the
    x coordinate (x becomes width - x, or height - x for the swapped
    rotations) and then applies the per-rotation transform. -/
def rotation (x y width height : Nat) (r : Rotation) : Nat × Nat :=
  let x2 : Nat :=
    match r with
    | .Rotate0 | .Rotate180 => width - x
    | .Rotate90 | .Rotate270 => height - x
  match r with
  | .Rotate0 => (x2 / 8 + (width / 8) * y, 128 >>> (x2 % 8))
  | .Rotate90 => ((width - 1 - y) / 8 + (width / 8) * x2, 1 <<< (y % 8))
  | .Rotate180 =>
      ((width / 8) * height - 1 - (x2 / 8 + (width / 8) * y), 1 <<< (x2 % 8))
  | .Rotate270 =>
      let index := y / 8
      let height_offset := height - x2
      let multiplier := width / 8
      let additive := height_offset * multiplier
      (index + additive, 128 >>> (y % 8))

end Display

/-- The rotation-adjusted logical bounds: for Rotate0/Rotate180 the logical
    size is (width, height); for Rotate90/Rotate270 width and height are
    swapped (display.rs, fn size). -/
def inLogicalBounds (r : Rotation) (width height x y : Nat) : Prop :=
  match r with
  | .Rotate0 | .Rotate180 => x < width ∧ y < height
  | .Rotate90 | .Rotate270 => x < height ∧ y < width

instance (r : Rotation) (width height x y : Nat) :
    Decidable (inLogicalBounds r width height x y) := by
  unfold inLogicalBounds
  cases r <;> infer_instance

/-
  Command protocol layer (command.rs).  Each DisplayCommands method of the
  Interface4Pin implementation is modelled by the trace of command and data
  bytes it emits through send_command/send_data when the transport succeeds.
  u16 arguments are split into little-endian bytes exactly as
  u16::to_le_bytes does ([n % 256, n / 256]).
-/

/-- Data entry mode (command.rs, enum DataEntryMode). -/
inductive DataEntryMode
| DecrementXDecrementY
| IncrementXDecrementY
| DecrementXIncrementY
| IncrementXIncrementY

/-- Discriminant of DataEntryMode. -/
def DataEntryMode.val : DataEntryMode → Nat
| .DecrementXDecrementY => 0
| .IncrementXDecrementY => 1
| .DecrementXIncrementY => 2
| .IncrementXIncrementY => 3

/-- Address increment orientation (command.rs, enum IncrementAxis). -/
inductive IncrementAxis
| Horizontal
| Vertical

/-- Discriminant of IncrementAxis. -/
def IncrementAxis.val : IncrementAxis → Nat
| .Horizontal => 0
| .Vertical => 1

/-- VBD option (command.rs, enum WaveformVDBOption). -/
inductive WaveformVDBOption
| Transition
| Fixed
| VCOM
| HiZ

/-- Discriminant of WaveformVDBOption. -/
def WaveformVDBOption.val : WaveformVDBOption → Nat
| .Transition => 0
| .Fixed => 1
| .VCOM => 2
| .HiZ => 3

/-- Fixed level setting for VBD (command.rs, enum VDBFixedLevelSetting). -/
inductive VDBFixedLevelSetting
| VSS
| VSH1
| VSL
| VSH2

/-- Discriminant of VDBFixedLevelSetting. -/
def VDBFixedLevelSetting.val : VDBFixedLevelSetting → Nat
| .VSS => 0
| .VSH1 => 1
| .VSL => 2
| .VSH2 => 3

/-- GS transition setting for VBD (command.rs, enum VDBGSTransitionSetting). -/
inductive VDBGSTransitionSetting
| LUT0
| LUT1
| LUT2
| LUT3

/-- Discriminant of VDBGSTransitionSetting. -/
def VDBGSTransitionSetting.val : VDBGSTransitionSetting → Nat
| .LUT0 => 0
| .LUT1 => 1
| .LUT2 => 2
| .LUT3 => 3

/-- Temperature sensor selection (command.rs, enum TemperatureSensor). -/
inductive TemperatureSensor
| Internal
| External

/-- Discriminant of TemperatureSensor (Internal = 0x80, External = 48). -/
def TemperatureSensor.val : TemperatureSensor → Nat
| .Internal => 0x80
| .External => 48

/-- fn set_driver_output_control_from_width: opcode 0x01 followed by the
    three data bytes (width-1) % 256, (width-1) / 256, 0x02, each sent as a
    separate data transfer. -/
def set_driver_output_control_from_width (width : Nat) : List TraceItem :=
  [.cmd 0x01, .data [sub16 width 1 % 256], .data [sub16 width 1 / 256],
   .data [0x02]]

/-- fn set_data_entry_mode: opcode 0x11 with the packed config byte
    (increment_axis << 2) | data_entry_mode. -/
def set_data_entry_mode (m : DataEntryMode) (a : IncrementAxis) :
    List TraceItem :=
  [.cmd 0x11, .data [(a.val <<< 2) ||| m.val]]

/-- fn write_ram_black_and_white: opcode 0x24 followed by the buffer. -/
def write_ram_black_and_white (d : List Nat) : List TraceItem :=
  [.cmd 0x24, .data d]

/-- fn write_ram_red: opcode 0x26 followed by the buffer. -/
def write_ram_red (d : List Nat) : List TraceItem :=
  [.cmd 0x26, .data d]

/-- fn auto_write_ram_red_regular_pattern: opcode 0x46 with the pattern. -/
def auto_write_ram_red_regular_pattern (v : Nat) : List TraceItem :=
  [.cmd 0x46, .data [v]]

/-- fn auto_write_ram_black_and_white_regular_pattern: opcode 0x47 with the
    pattern. -/
def auto_write_ram_black_and_white_regular_pattern (v : Nat) :
    List TraceItem :=
  [.cmd 0x47, .data [v]]

/-- fn set_ram_x_count: opcode 0x4E with the little-endian offset. -/
def set_ram_x_count (offset : Nat) : List TraceItem :=
  [.cmd 0x4E, .data [offset % 256, offset / 256]]

/-- fn set_ram_y_count: opcode 0x4F with the little-endian offset. -/
def set_ram_y_count (offset : Nat) : List TraceItem :=
  [.cmd 0x4F, .data [offset % 256, offset / 256]]

/-- fn refresh_display: opcode 0x20 (followed by a busy wait, which emits
    nothing). -/
def refresh_display : List TraceItem :=
  [.cmd 0x20]

/-- fn set_ram_x_address: opcode 0x44 with the little-endian start bytes and
    the little-endian end bytes, where the source masks the high byte of the
    end value with 0b00111111. -/
def set_ram_x_address (start endVal : Nat) : List TraceItem :=
  [.cmd 0x44,
   .data [start % 256, start / 256, endVal % 256, endVal / 256 &&& 63]]

/-- fn set_ram_y_address: opcode 0x45, same framing as set_ram_x_address. -/
def set_ram_y_address (start endVal : Nat) : List TraceItem :=
  [.cmd 0x45,
   .data [start % 256, start / 256, endVal % 256, endVal / 256 &&& 63]]

/-- fn set_ram_address_based_on_size: the X window gets (0, height-1) and
    the Y window gets (0, width-1), in u16 arithmetic. -/
def set_ram_address_based_on_size (width height : Nat) : List TraceItem :=
  set_ram_x_address 0 (sub16 height 1) ++ set_ram_y_address 0 (sub16 width 1)

/-- fn set_border_waveform_control: opcode 0x3C with the packed byte
    (vdb_option << 6) | (fixed_level_setting << 4) | transition_setting. -/
def set_border_waveform_control (v : WaveformVDBOption)
    (f : VDBFixedLevelSetting) (t : VDBGSTransitionSetting) :
    List TraceItem :=
  [.cmd 0x3C, .data [(v.val <<< 6) ||| (f.val <<< 4) ||| t.val]]

/-- fn set_temperature_sensor: opcode 0x18 with the sensor discriminant. -/
def set_temperature_sensor (s : TemperatureSensor) : List TraceItem :=
  [.cmd 0x18, .data [s.val]]

/-- fn update_display_option2: opcode 0x22 with the option byte. -/
def update_display_option2 (o : Nat) : List TraceItem :=
  [.cmd 0x22, .data [o]]

/-- fn reset_software: opcode 0x12 (followed by a busy wait). -/
def reset_software : List TraceItem :=
  [.cmd 0x12]

/-
  Controller state machine (basic_display.rs).
-/

/-- The nine fallible steps of BasicDisplay::init (lines 145-200), in source
    order, each being one DisplayCommands call wrapped in expect.  The trace
    of a successful init is the concatenation of these chunks. -/
def init_chunks (rows cols : Nat) : List (List TraceItem) :=
  [auto_write_ram_black_and_white_regular_pattern 0xF7,
   auto_write_ram_red_regular_pattern 0xF7,
   set_driver_output_control_from_width rows,
   set_data_entry_mode .IncrementXIncrementY .Horizontal,
   set_ram_address_based_on_size rows cols,
   set_border_waveform_control .Transition .VSS .LUT1,
   set_temperature_sensor .Internal,
   update_display_option2 0xFF,
   refresh_display]

/-- Trace emitted by a fully successful BasicDisplay::init. -/
def init_trace (rows cols : Nat) : List TraceItem :=
  (init_chunks rows cols).flatten

/-- The command opcodes of the init trace, in order. -/
def init_cmds (rows cols : Nat) : List Nat :=
  (init_trace rows cols).filterMap fun i =>
    match i with
    | .cmd c => some c
    | .data _ => none

/-- Trace emitted by BasicDisplay::update (lines 222-271): an optional
    black-and-white plane write, an optional red plane write (each preceded
    by resetting the RAM X/Y counters to zero), the update mode byte, then
    the refresh command. -/
def update_trace (bw red : Option (List Nat)) (m : DisplayUpdateMode) :
    List TraceItem :=
  (match bw with
   | some buffer =>
       set_ram_x_count 0 ++ set_ram_y_count 0 ++
         write_ram_black_and_white buffer
   | none => []) ++
  (match red with
   | some buffer =>
       set_ram_x_count 0 ++ set_ram_y_count 0 ++ write_ram_red buffer
   | none => []) ++
  update_display_option2 m.val ++ refresh_display

/-
  Failure model for the expect-based orchestration in basic_display.rs.
  Every fallible DisplayCommands call in init/reset/update is wrapped in
  expect (or unwrap), so a transport error at any step terminates the
  process (a panic) instead of producing the Err branch of the declared
  Result return type.
-/

/-- Outcome of running an expect-wrapped command sequence.  The err
    constructor mirrors the Err branch of the declared Rust return type;
    the embedding of the source never produces it, because every fallible
    call is unwrapped on the spot. -/
inductive RunOutcome
| ok
| panicked (step : Nat)
| err (step : Nat)
deriving DecidableEq

/-- Run a list of expect-wrapped steps in order: the step at index i emits
    its chunk if the transport succeeds there (fails i = false) and panics
    otherwise, emitting nothing further. -/
def run_expect_steps (fails : Nat → Bool) :
    Nat → List (List TraceItem) → RunOutcome × List TraceItem
  | _, [] => (.ok, [])
  | i, c :: rest =>
      if fails i then (.panicked i, [])
      else
        let r := run_expect_steps fails (i + 1) rest
        (r.1, c ++ r.2)

/-- BasicDisplay::init under a transport that fails exactly at the steps
    where fails returns true. -/
def init_run (rows cols : Nat) (fails : Nat → Bool) :
    RunOutcome × List TraceItem :=
  run_expect_steps fails 0 (init_chunks rows cols)

/-- A transport that fails on its very first command. -/
def fail_all_steps : Nat → Bool := fun _ => true

/-
  Display layer (display.rs): the framebuffer-mutating operations.
-/

/-- Fill byte chosen by Display::clear (graphics variant, lines 139-158):
    On (a dark pixel) fills with 0x00, Off with 0xFF. -/
def fill_value : BinaryColor → Nat
| .On => 0x00
| .Off => 0xFF

/-- Display::clear: overwrite every byte of the buffer with the fill value,
    then, only when auto_update is enabled, emit a Slow update of the new
    buffer.  Returns the new buffer and the emitted trace. -/
def clear (autoUpdate : Bool) (buf : List Nat) (color : BinaryColor) :
    List Nat × List TraceItem :=
  let fv := fill_value color
  let newBuf := buf.map fun _ => fv
  (newBuf,
   if autoUpdate then update_trace (some newBuf) none .Slow else [])

/-- Display::set_pixel: look up the byte index and bit mask through
    Display.rotation, then clear the bit for On and set it for Off.  The
    source indexes the buffer without a bounds check and panics when the
    index is out of range; that panic is modelled as none. -/
def set_pixel (cols rows : Nat) (rot : Rotation) (buf : List Nat)
    (x y : Nat) (color : BinaryColor) : Option (List Nat) :=
  let p := Display.rotation x y cols rows rot
  let index := p.1
  let bit := p.2
  if hidx : index < buf.length then
    some (match color with
      | .On => buf.set index (buf.get ⟨index, hidx⟩ &&& (255 - bit))
      | .Off => buf.set index (buf.get ⟨index, hidx⟩ ||| bit))
  else none

/-- The logical size reported by Display::size: (cols, rows) for
    Rotate0/Rotate180, (rows, cols) for Rotate90/Rotate270. -/
def size (rot : Rotation) (cols rows : Nat) : Nat × Nat :=
  match rot with
  | .Rotate0 | .Rotate180 => (cols, rows)
  | .Rotate90 | .Rotate270 => (rows, cols)

/-- The cast x as u32 applied by draw_iter to each i32 pixel coordinate:
    two-complement reinterpretation, i.e. reduction modulo 2^32. -/
def to_u32 (i : Int) : Nat := (i % 4294967296).toNat

/-- The pixel loop of Display::draw_iter: each pixel whose cast coordinates
    pass the size filter goes through set_pixel; the rest are skipped
    without touching the buffer.  none models a panic inside set_pixel. -/
def draw_iter_go (cols rows : Nat) (rot : Rotation) (szw szh : Nat)
    (buf : List Nat) : List (Int × Int × BinaryColor) → Option (List Nat)
  | [] => some buf
  | (px, py, c) :: rest =>
      let x := to_u32 px
      let y := to_u32 py
      if x < szw ∧ y < szh then
        match set_pixel cols rows rot buf x y c with
        | some buf2 => draw_iter_go cols rows rot szw szh buf2 rest
        | none => none
  else draw_iter_go cols rows rot szw szh buf rest

/-- Display::draw_iter (display.rs, lines 309-335): run the pixel loop
    against the rotated logical size, then, when auto_update is enabled,
    emit a Fast update of the resulting buffer.  A some result corresponds
    to the Ok(()) return of the source; none models a panic. -/
def draw_iter (cols rows : Nat) (rot : Rotation) (autoUpdate : Bool)
    (buf : List Nat) (pixels : List (Int × Int × BinaryColor)) :
    Option (List Nat × List TraceItem) :=
  let sz := size rot cols rows
  match draw_iter_go cols rows rot sz.1 sz.2 buf pixels with
  | some buf2 =>
      some (buf2,
        if autoUpdate then update_trace (some buf2) none .Fast else [])
  | none => none

/-
  Interface layer (interface.rs): the busy-wait loop.
-/

/-- Interface4Pin::busy_wait (interface.rs, lines 157-162) against a finite
    schedule of busy-pin reads, where some b is a successful is_high read
    and none is a read error.  The loop keeps spinning exactly while the
    read matches Ok(true); an error is mapped to false by the source match
    and stops the loop.  The result counts the reads consumed before the
    loop exits (some n means the loop exits normally on read n); none means
    the schedule ran out while the pin still read busy. -/
def busy_wait_go : List (Option Bool) → Option Nat
  | [] => none
  | r :: rest =>
      if (match r with | some x => x | none => false) then
        (busy_wait_go rest).map (· + 1)
      else some 0

/-
  Theorems.
-/

/-- The mask 0x80 >> k is injective for shifts below 8. -/
lemma mask_shiftr_inj : ∀ a < 8, ∀ b < 8, 128 >>> a = 128 >>> b → a = b := by
  decide

/-- The mask 0x01 << k is injective for shifts below 8. -/
lemma mask_shiftl_inj : ∀ a < 8, ∀ b < 8, 1 <<< a = 1 <<< b → a = b := by
  decide

/-- Uniqueness of the division decomposition: if a + m * q1 = b + m * q2
    with a and b both below m, the components agree. -/
lemma add_mul_inj (m a b q1 q2 : Nat) (ha : a < m) (hb : b < m)
    (h : a + m * q1 = b + m * q2) : a = b ∧ q1 = q2 := by
  have h1 : (a + m * q1) % m = a := by
    rw [Nat.add_mul_mod_self_left, Nat.mod_eq_of_lt ha]
  have h2 : (b + m * q2) % m = b := by
    rw [Nat.add_mul_mod_self_left, Nat.mod_eq_of_lt hb]
  have hab : a = b := by rw [← h1, h, h2]
  subst hab
  have hm : 0 < m := Nat.lt_of_le_of_lt (Nat.zero_le a) ha
  have hq : m * q1 = m * q2 := by omega
  exact ⟨rfl, Nat.eq_of_mul_eq_mul_left hm hq⟩

/-- Claim C1: the mapping used by set_pixel is claimed to stay within the
    rows*cols/8 byte buffer for every in-bounds coordinate of a valid
    configuration.  The code violates this: display.rs mirrors x as
    width - x instead of width - 1 - x, so on the valid 8-column, 1-row
    configuration the leftmost pixel (0, 0) under Rotate0 is sent to byte
    index 1 while the buffer holds exactly 1 byte, and set_pixel panics
    there.  This theorem evaluates the source mapping at that failing
    input. -/
theorem display_rotation_escapes_buffer_on_left_column :
    Display.rotation 0 0 8 1 Rotation.Rotate0 = (1, 128) ∧
      ¬ (Display.rotation 0 0 8 1 Rotation.Rotate0).1 < 1 * 8 / 8 := by
  decide

/-- Claim C2: on the native 800 by 480 panel, the section 4.3 map (the
    rotation function of graphics.rs) sends (0,0) to byte 0 with mask 0x80,
    (7,0) to byte 0 with mask 0x01, and (8,0) to byte 1 with mask 0x80
    under Rotate0. -/
theorem rotation_map_native_panel_anchor_points :
    Graphics.rotation 0 0 800 480 Rotation.Rotate0 = (0, 0x80) ∧
      Graphics.rotation 7 0 800 480 Rotation.Rotate0 = (0, 0x01) ∧
      Graphics.rotation 8 0 800 480 Rotation.Rotate0 = (1, 0x80) := by
  decide

/-- Claim C4: update with only a black-and-white buffer and the Slow mode
    emits exactly the X-counter reset (0x4E), the Y-counter reset (0x4F),
    the black-and-white RAM write (0x24) carrying the buffer, the option-2
    byte 0xF7 (0x22), and the refresh (0x20); the red-RAM opcode 0x26 never
    appears in the trace. -/
theorem update_trace_bw_slow_exact (buf : List Nat) :
    update_trace (some buf) none DisplayUpdateMode.Slow =
      [.cmd 0x4E, .data [0, 0], .cmd 0x4F, .data [0, 0],
       .cmd 0x24, .data buf, .cmd 0x22, .data [0xF7], .cmd 0x20] ∧
      TraceItem.cmd 0x26 ∉ update_trace (some buf) none DisplayUpdateMode.Slow := by
  constructor
  · rfl
  · simp [update_trace, set_ram_x_count, set_ram_y_count,
      write_ram_black_and_white, update_display_option2, refresh_display,
      DisplayUpdateMode.val]

/-- Claim C6: the claim (and the doc comment of set_ram_x_address and
    set_ram_y_address in command.rs) says the 16-bit end value is truncated
    to its low 10 bits, so the transmitted end would equal end mod 1024 and
    end = 1024 would be sent as 0.  The code instead masks the high end
    byte with 0b00111111, keeping 14 bits: for end = 1024 the wire carries
    the little-endian bytes [0x00, 0x04], i.e. the value 1024 itself, so
    bits 10 to 13 do reach the wire.  This theorem evaluates the source at
    that failing input. -/
theorem ram_window_end_keeps_fourteen_bits :
    set_ram_x_address 0 1024 = [.cmd 0x44, .data [0, 0, 0, 4]] ∧
      set_ram_y_address 0 1024 = [.cmd 0x45, .data [0, 0, 0, 4]] ∧
      set_ram_x_address 0 1024 ≠ [.cmd 0x44, .data [0, 0, 0, 0]] := by
  decide

/-- Claim C7: the claim (and the doc comments of init, reset and update in
    basic_display.rs) says a transport error is returned to the caller as
    the Err value of the Result.  The code instead wraps every fallible
    step in expect or unwrap: under a transport whose first write fails,
    init panics at step 0 having emitted nothing, and the err outcome is
    never produced.  This theorem evaluates the embedded init at that
    failing transport. -/
theorem init_panics_on_transport_failure :
    init_run 480 800 fail_all_steps = (RunOutcome.panicked 0, []) := by
  rfl

/-- Claim C8 counterexample: the claim says clear never touches the
    hardware, but with auto_update enabled (the builder default) the
    dark-fill clear emits a full Slow update sequence to the transport. -/
theorem clear_emits_hardware_trace_with_auto_update :
    (clear true [0x55] BinaryColor.On).2 ≠ [] := by
  decide

/-- Claim C8 as amended: clear fills every byte of the buffer with 0x00
    for the dark fill and 0xFF for the light fill; it performs no hardware
    access when auto_update is disabled, and with auto_update enabled it
    emits exactly a Slow update of the freshly filled buffer. -/
theorem clear_fill_and_conditional_update (autoUpdate : Bool)
    (buf : List Nat) (color : BinaryColor) :
    (clear autoUpdate buf color).1 =
        List.replicate buf.length (fill_value color) ∧
      fill_value BinaryColor.On = 0x00 ∧
      fill_value BinaryColor.Off = 0xFF ∧
      (clear false buf color).2 = [] ∧
      (clear true buf color).2 =
        update_trace
          (some (List.replicate buf.length (fill_value color))) none
          DisplayUpdateMode.Slow := by
  refine ⟨?_, rfl, rfl, rfl, ?_⟩ <;>
    simp [clear, List.map_const']

/-- Claim C9: busy_wait spins while the busy pin reads Ok(true) and stops
    at the first read that is an error or Ok(false): after n busy reads, a
    read error makes it return normally at once, exactly as a not-busy
    read does, regardless of the remaining schedule, and the error is
    discarded rather than propagated (the result carries no error). -/
theorem busy_wait_stops_on_error_or_not_busy (n : Nat)
    (rest : List (Option Bool)) :
    busy_wait_go (List.replicate n (some true) ++ none :: rest) = some n ∧
      busy_wait_go (List.replicate n (some true) ++ some false :: rest) =
        some n := by
  induction n with
  | zero => exact ⟨rfl, rfl⟩
  | succ k ih =>
      constructor
      · simpa [List.replicate_succ, busy_wait_go] using ih.1
      · simpa [List.replicate_succ, busy_wait_go] using ih.2

/-- Claim C10: draw_iter claims to always return Ok(()).  Through the
    off-by-one mirror of display.rs (see C1), the in-filter pixel (0, 0)
    on the valid 8-column, 1-row Rotate0 configuration makes set_pixel
    index byte 1 of the 1-byte buffer, so draw_iter panics instead of
    returning: the embedded run yields none at that input. -/
theorem draw_iter_panics_on_left_column_pixel :
    draw_iter 8 1 Rotation.Rotate0 false [0xFF]
        [(0, 0, BinaryColor.On)] = none := by
  decide

/-- Claim C3: for each fixed rotation, the section 4.3 coordinate map (the
    rotation function of graphics.rs) is injective over the
    rotation-adjusted logical coordinate space of a byte-aligned panel: two
    coordinates that receive the same byte index and the same bit mask are
    equal, so no two distinct pixels share a bit of the framebuffer. -/
theorem rotation_map_injective (r : Rotation) (w h x1 y1 x2 y2 : Nat)
    (hw8 : w % 8 = 0)
    (hb1 : inLogicalBounds r w h x1 y1)
    (hb2 : inLogicalBounds r w h x2 y2)
    (heq : Graphics.rotation x1 y1 w h r = Graphics.rotation x2 y2 w h r) :
    x1 = x2 ∧ y1 = y2 := by
  have hdvd : (8 : Nat) ∣ w := Nat.dvd_of_mod_eq_zero hw8
  cases r with
  | Rotate0 =>
      obtain ⟨hx1, hy1⟩ := hb1
      obtain ⟨hx2, hy2⟩ := hb2
      simp only [Graphics.rotation, Prod.mk.injEq] at heq
      obtain ⟨hidx, hbit⟩ := heq
      have hm : x1 % 8 = x2 % 8 :=
        mask_shiftr_inj _ (Nat.mod_lt _ (by decide)) _
          (Nat.mod_lt _ (by decide)) hbit
      have hd1 : x1 / 8 < w / 8 := Nat.div_lt_div_of_lt_of_dvd hdvd hx1
      have hd2 : x2 / 8 < w / 8 := Nat.div_lt_div_of_lt_of_dvd hdvd hx2
      obtain ⟨hdiv, hy⟩ := add_mul_inj (w / 8) _ _ _ _ hd1 hd2 hidx
      exact ⟨by omega, hy⟩
  | Rotate90 =>
      obtain ⟨hx1, hy1⟩ := hb1
      obtain ⟨hx2, hy2⟩ := hb2
      simp only [Graphics.rotation, Prod.mk.injEq] at heq
      obtain ⟨hidx, hbit⟩ := heq
      have hm : y1 % 8 = y2 % 8 :=
        mask_shiftl_inj _ (Nat.mod_lt _ (by decide)) _
          (Nat.mod_lt _ (by decide)) hbit
      have hd1 : (w - 1 - y1) / 8 < w / 8 :=
        Nat.div_lt_div_of_lt_of_dvd hdvd (by omega)
      have hd2 : (w - 1 - y2) / 8 < w / 8 :=
        Nat.div_lt_div_of_lt_of_dvd hdvd (by omega)
      obtain ⟨hdiv, hx⟩ := add_mul_inj (w / 8) _ _ _ _ hd1 hd2 hidx
      exact ⟨hx, by omega⟩
  | Rotate180 =>
      obtain ⟨hx1, hy1⟩ := hb1
      obtain ⟨hx2, hy2⟩ := hb2
      simp only [Graphics.rotation, Prod.mk.injEq] at heq
      obtain ⟨hidx, hbit⟩ := heq
      have hm : x1 % 8 = x2 % 8 :=
        mask_shiftl_inj _ (Nat.mod_lt _ (by decide)) _
          (Nat.mod_lt _ (by decide)) hbit
      have hd1 : x1 / 8 < w / 8 := Nat.div_lt_div_of_lt_of_dvd hdvd hx1
      have hd2 : x2 / 8 < w / 8 := Nat.div_lt_div_of_lt_of_dvd hdvd hx2
      have hmul1 : w / 8 * y1 ≤ w / 8 * (h - 1) :=
        Nat.mul_le_mul_left (w / 8) (by omega)
      have hmul2 : w / 8 * y2 ≤ w / 8 * (h - 1) :=
        Nat.mul_le_mul_left (w / 8) (by omega)
      have hh : w / 8 * h = w / 8 * (h - 1) + w / 8 := by
        have hstep : h - 1 + 1 = h := by omega
        calc w / 8 * h = w / 8 * (h - 1 + 1) := by rw [hstep]
          _ = w / 8 * (h - 1) + w / 8 := by
              rw [Nat.mul_add, Nat.mul_one]
      have hA : x1 / 8 + w / 8 * y1 = x2 / 8 + w / 8 * y2 := by omega
      obtain ⟨hdiv, hy⟩ := add_mul_inj (w / 8) _ _ _ _ hd1 hd2 hA
      exact ⟨by omega, hy⟩
  | Rotate270 =>
      obtain ⟨hx1, hy1⟩ := hb1
      obtain ⟨hx2, hy2⟩ := hb2
      simp only [Graphics.rotation, Prod.mk.injEq] at heq
      obtain ⟨hidx, hbit⟩ := heq
      have hm : y1 % 8 = y2 % 8 :=
        mask_shiftr_inj _ (Nat.mod_lt _ (by decide)) _
          (Nat.mod_lt _ (by decide)) hbit
      rw [Nat.mul_comm (h - 1 - x1) (w / 8),
        Nat.mul_comm (h - 1 - x2) (w / 8)] at hidx
      have hd1 : y1 / 8 < w / 8 := Nat.div_lt_div_of_lt_of_dvd hdvd hy1
      have hd2 : y2 / 8 < w / 8 := Nat.div_lt_div_of_lt_of_dvd hdvd hy2
      obtain ⟨hdiv, hx⟩ := add_mul_inj (w / 8) _ _ _ _ hd1 hd2 hidx
      exact ⟨by omega, by omega⟩

/-- Witness for rotation_map_injective at a concrete input: the valid
    8 by 8 panel, Rotate0, with both coordinates (3, 2). -/
theorem rotation_map_injective_witness : (3 : Nat) = 3 ∧ (2 : Nat) = 2 :=
  rotation_map_injective Rotation.Rotate0 8 8 3 2 3 2 (by decide)
    (by decide) (by decide) rfl

/-- Claim C5: on every valid configuration, init emits the fixed nine-step
    sequence in order: fill the black-and-white plane (0x47) and the red
    plane (0x46) with the pattern byte 0xF7, program the gate-driver output
    count from the row count (0x01), program the data-entry mode (0x11),
    program the RAM X and Y address windows from the dimensions (0x44,
    0x45), program the border waveform (0x3C), select the internal
    temperature sensor (0x18), load the waveform LUT (0x22 with 0xFF), and
    force a refresh (0x20), with a busy wait that emits nothing.  The
    dimensions appear only in the data bytes of the driver-output-control
    and window commands, and the opcode sequence is one fixed list,
    independent of the dimensions. -/
theorem init_trace_fixed_sequence (rows cols : Nat)
    (_hc8 : cols % 8 = 0) (_hrmax : rows ≤ 680) (_hcmax : cols ≤ 960) :
    init_trace rows cols =
      [.cmd 0x47, .data [0xF7], .cmd 0x46, .data [0xF7],
       .cmd 0x01, .data [sub16 rows 1 % 256], .data [sub16 rows 1 / 256],
       .data [0x02],
       .cmd 0x11, .data [3],
       .cmd 0x44,
       .data [0, 0, sub16 cols 1 % 256, sub16 cols 1 / 256 &&& 63],
       .cmd 0x45,
       .data [0, 0, sub16 rows 1 % 256, sub16 rows 1 / 256 &&& 63],
       .cmd 0x3C, .data [1], .cmd 0x18, .data [0x80],
       .cmd 0x22, .data [0xFF], .cmd 0x20] ∧
      init_cmds rows cols =
        [0x47, 0x46, 0x01, 0x11, 0x44, 0x45, 0x3C, 0x18, 0x22, 0x20] := by
  exact ⟨rfl, rfl⟩

/-- Witness for init_trace_fixed_sequence on the concrete valid 480-row,
    800-column configuration. -/
theorem init_trace_fixed_sequence_witness :
    init_cmds 480 800 =
      [0x47, 0x46, 0x01, 0x11, 0x44, 0x45, 0x3C, 0x18, 0x22, 0x20] :=
  (init_trace_fixed_sequence 480 800 (by decide) (by decide) (by decide)).2

end SSD1677
